import Mathlib

/-!
Verification of the data-cleaning pipeline (rapsoj/data_cleaning).

Shallow embedding of the discovery / capability-dispatch / test-aggregation
core:
  * `src/core/base_cleaner.py`  (class `DataCleaner`)
  * `src/base_cleaner.py`       (class `BaseCleaner`, the legacy variant)
  * `src/data_cleaning.py`      (class `DataCleaningPipeline`)
  * `src/tests/test_framework.py`, `src/tests/test_runner.py`
  * `src/tests/test_definitions/builtin_tests.py`

Machine conventions: pandas DataFrames are lists of rows of optional cells;
exceptions are `Except String`; Python dicts keyed by strings are
association lists with replace-on-assignment insertion; numeric values that
Python holds as int/float are rationals.
-/

namespace DataCleaning

/-- A cell of a tabular dataset; `none` is the null marker (NaN). -/
abbrev Cell := Option String

/-- A row of a tabular dataset. -/
abbrev Row := List Cell

/-- Model of a pandas DataFrame as seen by the core: an ordered list of rows.
`len(df)` is `rows.length`. -/
structure DataFrame where
  rows : List Row
deriving DecidableEq, Repr

/-- A Python value as stored in heterogeneous `details` dicts. -/
inductive PyVal where
  | s (v : String)
  | n (v : ℚ)
  | b (v : Bool)
deriving DecidableEq, Repr

/-- Dict lookup (`d.get(k)` / `d[k]`) over an association list. -/
def alLookup {β : Type} : List (String × β) → String → Option β
  | [], _ => none
  | (k', v') :: rest, k => if k' = k then some v' else alLookup rest k

/-- Dict assignment `d[k] = v`: replaces an existing binding in place,
otherwise appends (Python dicts keep the original position on overwrite). -/
def alInsert {β : Type} : List (String × β) → String → β → List (String × β)
  | [], k, v => [(k, v)]
  | (k', v') :: rest, k, v =>
      if k' = k then (k, v) :: rest else (k', v') :: alInsert rest k v

/-- Test parameter mapping (`params: Dict[str, Any]`); every parameter the
claims touch is numeric. -/
abbrev Params := List (String × ℚ)

/-- The severity tag of a test outcome: `error` or `warning`. -/
inductive Severity where
  | error
  | warning
deriving DecidableEq, Repr

/-- The dict shape returned by a test function:
a dict of keys `passed` (bool), `message` (str), `details` (dict). -/
structure TFResult where
  passed : Bool
  message : String
  details : List (String × PyVal)
deriving DecidableEq, Repr

/-- A recorded test outcome: a `TFResult` with the severity attached by the
runner (the `severity` entry assigned into the result dict). -/
structure TestOutcome where
  passed : Bool
  message : String
  details : List (String × PyVal)
  severity : Severity
deriving DecidableEq, Repr

/-!
## builtin_tests.py — `test_duplicate_rows`

`df.duplicated()` marks a row when an equal row occurs earlier
(keep the first); summing counts the marks.
-/

/-- Count of rows equal to some earlier row, accumulating the rows already
seen (embeds `df.duplicated().sum()`). -/
def duplicatedCountAux : List Row → List Row → Nat
  | _, [] => 0
  | seen, r :: rest =>
      (if r ∈ seen then 1 else 0) + duplicatedCountAux (r :: seen) rest

/-- `df.duplicated().sum()`. -/
def duplicatedCount (rows : List Row) : Nat :=
  duplicatedCountAux [] rows

/-- `duplicate_pct = (duplicate_count / len(df) * 100) if len(df) > 0 else 0`
(src/tests/test_definitions/builtin_tests.py line 28), over the rationals. -/
def duplicatePct (df : DataFrame) : ℚ :=
  if df.rows.length > 0 then
    (duplicatedCount df.rows : ℚ) / (df.rows.length : ℚ) * 100
  else 0

/-- `test_duplicate_rows` (builtin_tests.py lines 24-37).
the threshold defaults to 0 when absent from params; passes iff the duplicate
percentage is strictly below the threshold.  The `{:.1f}` float formatting
of the message is rendered with `toString`. -/
def test_duplicate_rows (df : DataFrame) (params : Params) : TFResult :=
  let threshold : ℚ := (alLookup params "threshold").getD 0
  let duplicate_count : Nat := duplicatedCount df.rows
  let duplicate_pct : ℚ := duplicatePct df
  { passed := duplicate_pct < threshold
    message := "Found " ++ toString duplicate_count ++ " duplicate rows (" ++
      toString duplicate_pct ++ "%)"
    details := [("duplicate_count", PyVal.n duplicate_count),
                ("duplicate_percentage", PyVal.n duplicate_pct)] }

/-!
## tests/test_framework.py — class `TestRunner`

This is the runner the pipeline instantiates
(`from data_cleaning.tests.test_framework import TestRunner`).  Test
functions registered in `TestRegistry` take `(df, params)` and return a
result dict; a raised exception is an `Except.error` carrying `str(e)`.
-/

/-- A registered test function (`TestRegistry` entry). -/
abbrev TestFunc := DataFrame → Params → Except String TFResult

/-- `TestRegistry.get_test`: name to callable, `none` when unregistered. -/
abbrev TestRegistryFun := String → Option TestFunc

/-- One entry of a test configuration: its type, params and severity
(both the hard-coded standard table and a YAML spec). -/
structure TestConfig where
  type : String
  params : Params
  severity : Severity
deriving DecidableEq, Repr

/-- A custom test specification: the tests mapping of a YAML file
`tests/test_specs/<cleaner>.yaml`. -/
abbrev Spec := List (String × TestConfig)

/-- The outcome `_run_standard_tests` synthesizes when a standard test
raises (test_framework.py lines 108-114); the severity is always `error`,
even when the configured severity was `warning`. -/
def crashOutcomeStd (e : String) : TestOutcome :=
  { passed := false
    message := "Standard test failed with error: " ++ e
    severity := Severity.error
    details := [("error", PyVal.s e)] }

/-- One iteration of the `_run_standard_tests` loop (lines 95-114): look the
type up in the registry; if absent, log and record nothing; otherwise call
the test, attach the configured severity, and turn a raised exception into
`crashOutcomeStd`. -/
def runOneStandard (reg : TestRegistryFun) (df : DataFrame)
    (nc : String × TestConfig) : Option (String × TestOutcome) :=
  match reg nc.2.type with
  | some f =>
      some (nc.1,
        match f df nc.2.params with
        | Except.ok r =>
            { passed := r.passed, message := r.message, details := r.details
              severity := nc.2.severity }
        | Except.error e => crashOutcomeStd e)
  | none => none

/-- `_run_standard_tests` over an arbitrary test table. -/
def runStandardTestsWith (reg : TestRegistryFun) (df : DataFrame)
    (tests : List (String × TestConfig)) : List (String × TestOutcome) :=
  tests.filterMap (runOneStandard reg df)

/-- The hard-coded `standard_tests` table (test_framework.py lines 71-92). -/
def standardTestsConfig : List (String × TestConfig) :=
  [("not_empty", ⟨"not_empty", [], Severity.error⟩),
   ("no_null_columns", ⟨"no_null_columns", [], Severity.error⟩),
   ("duplicate_rows", ⟨"duplicate_rows", [("threshold", 1)], Severity.warning⟩),
   ("data_types", ⟨"data_types", [], Severity.warning⟩)]

/-- `TestRunner._run_standard_tests` (lines 66-116). -/
def runStandardTests (reg : TestRegistryFun) (df : DataFrame) :
    List (String × TestOutcome) :=
  runStandardTestsWith reg df standardTestsConfig

/-- One iteration of the `_run_custom_tests` loop (lines 122-147): unknown
type records a failing `error` outcome; a raised exception records the
crash outcome whose details hold the error text and the test type. -/
def runOneCustom (reg : TestRegistryFun) (df : DataFrame)
    (nc : String × TestConfig) : String × TestOutcome :=
  (nc.1,
    match reg nc.2.type with
    | some f =>
        match f df nc.2.params with
        | Except.ok r =>
            { passed := r.passed, message := r.message, details := r.details
              severity := nc.2.severity }
        | Except.error e =>
            { passed := false
              message := "Test failed with error: " ++ e
              severity := Severity.error
              details := [("error", PyVal.s e), ("test_type", PyVal.s nc.2.type)] }
    | none =>
        { passed := false
          message := "Unknown test type: " ++ nc.2.type
          severity := Severity.error
          details := [] })

/-- `TestRunner._run_custom_tests` (lines 118-149). -/
def runCustomTests (reg : TestRegistryFun) (df : DataFrame) (spec : Spec) :
    List (String × TestOutcome) :=
  spec.map (runOneCustom reg df)

/-- The mutable aggregate built by `run_tests`
(its passed flag and the errors and warnings lists). -/
structure AggState where
  passed : Bool
  errors : List String
  warnings : List String
deriving DecidableEq, Repr

/-- One iteration of `_aggregate_results` (lines 154-161): a failed outcome
of severity `error` appends to `errors` and clears `passed`; any other
failed outcome appends to `warnings` only. -/
def aggregateOne (agg : AggState) (nt : String × TestOutcome) : AggState :=
  if nt.2.passed then agg
  else if nt.2.severity = Severity.error then
    { agg with errors := agg.errors ++ ["[" ++ nt.1 ++ "] " ++ nt.2.message]
               passed := false }
  else
    { agg with warnings := agg.warnings ++ ["[" ++ nt.1 ++ "] " ++ nt.2.message] }

/-- `TestRunner._aggregate_results` (lines 151-161). -/
def aggregateResults (outs : List (String × TestOutcome)) (agg : AggState) :
    AggState :=
  outs.foldl aggregateOne agg

/-- The dict returned by `TestRunner.run_tests`: aggregate flags plus
the standard details and (when a custom spec was loaded) the custom details. -/
structure AggResults where
  passed : Bool
  errors : List String
  warnings : List String
  detailsStandard : List (String × TestOutcome)
  detailsCustom : Option (List (String × TestOutcome))
deriving DecidableEq, Repr

/-- `TestRunner.run_tests` (test_framework.py lines 21-64).  `specs` models
`_load_custom_spec`: the contents of `tests/test_specs/<name>.yaml`, with
`none` covering a missing file, a load failure, or a falsy spec. -/
def TF_run_tests (reg : TestRegistryFun) (specs : String → Option Spec)
    (cleaner_name : String) (df : DataFrame) : AggResults :=
  let std := runStandardTests reg df
  let agg1 := aggregateResults std ⟨true, [], []⟩
  match specs cleaner_name with
  | some spec =>
      let cust := runCustomTests reg df spec
      let agg2 := aggregateResults cust agg1
      { passed := agg2.passed, errors := agg2.errors, warnings := agg2.warnings
        detailsStandard := std, detailsCustom := some cust }
  | none =>
      { passed := agg1.passed, errors := agg1.errors, warnings := agg1.warnings
        detailsStandard := std, detailsCustom := none }

/-- All outcomes contained in a run report (the standard details together
with the custom details when present). -/
def AggResults.outcomes (r : AggResults) : List (String × TestOutcome) :=
  r.detailsStandard ++ r.detailsCustom.getD []

/-!
## core/base_cleaner.py — class `DataCleaner`

A concrete cleaner either overrides an optional operation or inherits the
base implementation, which always raises `NotImplementedError`.  An
overridden operation is a `some` field (its body is arbitrary user code
that may raise); a non-overridden one is `none`.  Calling a `none` field
raises exactly the message of the base implementation.
-/

/-- A filesystem path (opaque). -/
abbrev FilePath := String

/-- A cleaner instance: `self.name` plus the four optional operations and
`validate_output` (whose base default returns `True`). -/
structure Cleaner where
  name : String
  download_to_df : Option (Except String DataFrame)
  download_to_path : Option (FilePath → Except String FilePath)
  clean_from_df : Option (DataFrame → Except String DataFrame)
  clean_from_path : Option (FilePath → Except String DataFrame)
  validate_output : DataFrame → Bool

/-- The capability dict returned by `DataCleaner.get_capabilities`. -/
structure Caps where
  download_to_df : Bool
  download_to_path : Bool
  clean_from_df : Bool
  clean_from_path : Bool
deriving DecidableEq, Repr

/-- `DataCleaner.get_capabilities` (core/base_cleaner.py lines 82-89): one
boolean per operation, true iff the concrete class overrides it
(`self.__class__.op != DataCleaner.op`); in the embedding the identity
comparison against the base is exactly `Option.isSome`. -/
def get_capabilities (c : Cleaner) : Caps :=
  { download_to_df := c.download_to_df.isSome
    download_to_path := c.download_to_path.isSome
    clean_from_df := c.clean_from_df.isSome
    clean_from_path := c.clean_from_path.isSome }

/-- The `NotImplementedError` message of the base download methods
(core/base_cleaner.py lines 32-34 and 47-49). -/
def notImplDownloadMsg (name : String) : String :=
  name ++ " must implement either download_to_df() or download_to_path()"

/-- The `NotImplementedError` message of the base clean methods
(core/base_cleaner.py lines 63-65 and 78-80). -/
def notImplCleanMsg (name : String) : String :=
  name ++ " must implement either clean_from_df() or clean_from_path()"

/-- Invoke `cleaner.download_to_df()`: the override if present, else the
base implementation raising `NotImplementedError`. -/
def callDownloadToDf (c : Cleaner) : Except String DataFrame :=
  match c.download_to_df with
  | some r => r
  | none => Except.error (notImplDownloadMsg c.name)

/-- Invoke `cleaner.download_to_path(output_path)`. -/
def callDownloadToPath (c : Cleaner) (output_path : FilePath) :
    Except String FilePath :=
  match c.download_to_path with
  | some f => f output_path
  | none => Except.error (notImplDownloadMsg c.name)

/-- Invoke `cleaner.clean_from_df(df)`. -/
def callCleanFromDf (c : Cleaner) (df : DataFrame) : Except String DataFrame :=
  match c.clean_from_df with
  | some f => f df
  | none => Except.error (notImplCleanMsg c.name)

/-- Invoke `cleaner.clean_from_path(input_path)`. -/
def callCleanFromPath (c : Cleaner) (p : FilePath) : Except String DataFrame :=
  match c.clean_from_path with
  | some f => f p
  | none => Except.error (notImplCleanMsg c.name)

/-!
## data_cleaning.py — class `DataCleaningPipeline`
-/

/-- The `data_ref` of `run_cleaner`: `isinstance(data_ref, Path)` versus
`isinstance(data_ref, pd.DataFrame)`. -/
inductive DataRef where
  | path (p : FilePath)
  | df (d : DataFrame)

/-- `raw_dir = Path("data/raw") / cleaner_name` (data_cleaning.py line 314);
the `mkdir` side effect is not modelled. -/
def rawDir (cleaner_name : String) : FilePath :=
  "data/raw/" ++ cleaner_name

/-- Download-path selection, data_cleaning.py lines 311-326:
when use_disk is set and the path capability holds take the disk path,
else when the memory capability holds take the memory path, else raise
`NotImplementedError`. -/
def downloadStep (c : Cleaner) (cleaner_name : String) (use_disk : Bool) :
    Except String DataRef :=
  let capabilities := get_capabilities c
  if use_disk && capabilities.download_to_path then
    (callDownloadToPath c (rawDir cleaner_name)).map DataRef.path
  else if capabilities.download_to_df then
    (callDownloadToDf c).map DataRef.df
  else
    Except.error ("Cleaner " ++ cleaner_name ++
      " must implement download_to_df() or download_to_path()")

/-- The filesystem and test environment a run reads:
`pd.read_csv`, the test registry, and the custom spec files. -/
structure Env where
  read_csv : FilePath → Except String DataFrame
  registry : TestRegistryFun
  specs : String → Option Spec

/-- Clean-path selection, data_cleaning.py lines 328-340.  The Python
isinstance chain splits on the tag of `data_ref`: a path prefers
`clean_from_path`, falls back to `pd.read_csv` plus `clean_from_df`; an
in-memory frame requires `clean_from_df`; anything else raises
`NotImplementedError`. -/
def cleanStep (env : Env) (c : Cleaner) (cleaner_name : String)
    (data_ref : DataRef) : Except String DataFrame :=
  let capabilities := get_capabilities c
  match data_ref with
  | DataRef.path p =>
      if capabilities.clean_from_path then callCleanFromPath c p
      else if capabilities.clean_from_df then do
        let df ← env.read_csv p
        callCleanFromDf c df
      else
        Except.error ("Cleaner " ++ cleaner_name ++
          " does not support the required cleaning method")
  | DataRef.df d =>
      if capabilities.clean_from_df then callCleanFromDf c d
      else
        Except.error ("Cleaner " ++ cleaner_name ++
          " does not support the required cleaning method")

/-- The body of the `try` block of `run_cleaner` (lines 304-372): download,
clean, custom validation (`None` on failure), standard tests (`None` when
they fail; in `test_only` mode return the frame iff they passed), then the
CSV save (a side effect not modelled) and the cleaned frame.  `Except.error`
is a raised exception escaping the block. -/
def runCleanerCore (env : Env) (c : Cleaner) (cleaner_name : String)
    (use_disk test_only : Bool) : Except String (Option DataFrame) := do
  let data_ref ← downloadStep c cleaner_name use_disk
  let cleaned_df ← cleanStep env c cleaner_name data_ref
  if !(c.validate_output cleaned_df) then
    pure none
  else
    let test_results := TF_run_tests env.registry env.specs cleaner_name cleaned_df
    if test_only then
      pure (if test_results.passed then some cleaned_df else none)
    else if !test_results.passed then
      pure none
    else
      pure (some cleaned_df)

/-- `DataCleaningPipeline.run_cleaner` (lines 264-377) for a name already
discovered; an unknown name raises `ValueError` before the `try` block.
The second component is the `logger.error` log of the `except` handler
(lines 374-377): any exception from the body is caught, logged with the
cleaner name, and the method returns `None`. -/
def run_cleaner (env : Env) (reg : List (String × Cleaner))
    (cleaner_name : String) (use_disk test_only : Bool) :
    Except String (Option DataFrame) × List String :=
  match alLookup reg cleaner_name with
  | none =>
      (Except.error ("Cleaner " ++ cleaner_name ++ " not found."), [])
  | some c =>
      match runCleanerCore env c cleaner_name use_disk test_only with
      | Except.ok r => (Except.ok r, [])
      | Except.error e =>
          (Except.ok none,
           ["Error running cleaner " ++ cleaner_name ++ ": " ++ e])

/-- `DataCleaningPipeline.run_multiple` (lines 379-408), sequential branch:
the results dict keeps `name -> df` exactly for runs returning a frame; an
exception from `run_cleaner` is caught and logged.  The parallel branch
applies the identical per-name logic, only the completion order differs. -/
def run_multiple_seq (env : Env) (reg : List (String × Cleaner)) :
    List String → Bool → List (String × DataFrame)
  | [], _ => []
  | n :: rest, use_disk =>
      match (run_cleaner env reg n use_disk false).1 with
      | Except.ok (some df) => (n, df) :: run_multiple_seq env reg rest use_disk
      | _ => run_multiple_seq env reg rest use_disk

/-- Whether `run_cleaner` contributes an entry to the `run_multiple` dict:
no exception and a non-`None` result. -/
def runSucceeded (env : Env) (reg : List (String × Cleaner))
    (cleaner_name : String) (use_disk : Bool) : Bool :=
  match (run_cleaner env reg cleaner_name use_disk false).1 with
  | Except.ok (some _) => true
  | _ => false

/-!
## base_cleaner.py — class `BaseCleaner` (legacy variant)

Its `get_capabilities` (lines 131-149) actually calls
`self.download_data(format=..)` for both formats inside try/except blocks
to find the supported formats.  The embedding instruments invocation: the
second component of the result is the list of `download_data` calls made,
in order; both calls happen unconditionally (an exception is swallowed by
the bare `except`).
-/

/-- The `format` argument of `BaseCleaner.download_data`. -/
inductive DLFormat where
  | dataframe
  | array
deriving DecidableEq, Repr

/-- A cleaner built on the legacy `BaseCleaner`: the abstract
`download_data` as user code, plus whether the concrete class overrides the
optional `download_to_path` / `clean_from_path` methods (the base defines
both, so `hasattr` is true regardless of overriding). -/
structure PyBaseCleaner where
  download_data : DLFormat → Except String DataFrame
  overridesDownloadToPath : Bool
  overridesCleanFromPath : Bool

/-- The dict returned by `BaseCleaner.get_capabilities` (lines 144-149). -/
structure BCCapDict where
  download_data : Bool
  supported_formats : List String
  clean_data : Bool
  clean_from_path : Bool
deriving DecidableEq, Repr

/-- `BaseCleaner.get_capabilities` (base_cleaner.py lines 131-149) together
with its `download_data` invocation trace.  `clean_data` and
`clean_from_path` come from `hasattr(self, ..) and callable(..)`, which is
true for every instance because the base class defines both methods. -/
def BaseCleaner_get_capabilities (c : PyBaseCleaner) :
    BCCapDict × List DLFormat :=
  let fmts :=
    (if (c.download_data DLFormat.dataframe).isOk then ["dataframe"] else []) ++
    (if (c.download_data DLFormat.array).isOk then ["array"] else [])
  ({ download_data := true
     supported_formats := fmts
     clean_data := true
     clean_from_path := true },
   [DLFormat.dataframe, DLFormat.array])

/-!
## data_cleaning.py — `_discover_cleaners` / `_try_load_cleaner`
-/

/-- Discovery environment: the subdirectory names listed by `iterdir()` for
each root, and the outcome of `_try_load_cleaner` body for a candidate:
`some cls` when a `Cleaner` class is found and registered, `none` for every
failure mode (missing requirements, import error, missing class), which the
handler logs and swallows (lines 164-176). -/
structure DiscoveryEnv where
  builtinCandidates : List String
  externalCandidates : List String
  load : String → String → Option Cleaner

/-- `_try_load_cleaner` (lines 119-176): on success assign
`self._discovered_cleaners[cleaner_name] = cleaner_class`; on any failure
log and leave the registry unchanged. -/
def tryLoadCleaner (env : DiscoveryEnv) (base_path cleaner_name : String)
    (reg : List (String × Cleaner)) : List (String × Cleaner) :=
  match env.load base_path cleaner_name with
  | some cls => alInsert reg cleaner_name cls
  | none => reg

/-- `name.startswith(c)` for the one-character reserved markers. -/
def firstCharIs (s : String) (c : Char) : Bool :=
  match s.data with
  | [] => false
  | c' :: _ => c' == c

/-- `_discover_cleaners` (lines 103-117): scan `cleaners/` (skipping names
starting with an underscore), then `external_cleaners/` (skipping names
starting with a dot), loading each candidate in order. -/
def discoverCleaners (env : DiscoveryEnv) : List (String × Cleaner) :=
  let reg1 := (env.builtinCandidates.filter
      (fun n => !firstCharIs n '_')).foldl
      (fun reg n => tryLoadCleaner env "cleaners" n reg) []
  (env.externalCandidates.filter
      (fun n => !firstCharIs n '.')).foldl
      (fun reg n => tryLoadCleaner env "external_cleaners" n reg) reg1

/-!
## tests/test_runner.py — the second `TestRunner`

Its test functions take only the frame and may return a bool, a result
dict, or anything else (recorded as an invalid return type).
-/

/-- What a `test_runner.py` test function returns. -/
inductive TRRet where
  | asBool (v : Bool)
  | asDict (passed : Bool) (message : String) (details : List (String × PyVal))
  | invalid (typeName : String)

/-- A discovered test function of the second runner. -/
abbrev TestFunc2 := DataFrame → Except String TRRet

/-- The state of the second runner: the test dicts discovered at
construction (`self.standard_tests`, `self.custom_tests`); `run_tests`
reads them and assigns no attribute. -/
structure Runner2State where
  standard_tests : List (String × TestFunc2)
  custom_tests : List (String × TestFunc2)

/-- A recorded entry of the test details of the results dict. -/
structure TestOutcome2 where
  passed : Bool
  message : String
  details : List (String × PyVal)
deriving DecidableEq, Repr

/-- The results dict of `test_runner.py run_tests`. -/
structure TR2Results where
  passed : Bool
  total_tests : Nat
  passed_tests : Nat
  failed_tests : Nat
  test_details : List (String × TestOutcome2)
deriving Repr

/-- Normalisation of a test return value (test_runner.py lines 139-153). -/
def normalizeResult : TRRet → TestOutcome2
  | TRRet.asBool v =>
      { passed := v, message := if v then "Passed" else "Failed", details := [] }
  | TRRet.asDict p m d => { passed := p, message := m, details := d }
  | TRRet.invalid t =>
      { passed := false, message := "Invalid test return type: " ++ t
        details := [] }

/-- One iteration of the `run_tests` loop (lines 131-179): bump the total,
normalise the return value or synthesize the crash outcome, record it, and
update the counters and the aggregate flag. -/
def runner2Step (df : DataFrame) (results : TR2Results)
    (nt : String × TestFunc2) : TR2Results :=
  let results := { results with total_tests := results.total_tests + 1 }
  match nt.2 df with
  | Except.ok r =>
      let o := normalizeResult r
      let results := { results with
        test_details := results.test_details ++ [(nt.1, o)] }
      if o.passed then
        { results with passed_tests := results.passed_tests + 1 }
      else
        { results with failed_tests := results.failed_tests + 1, passed := false }
  | Except.error e =>
      { results with
        failed_tests := results.failed_tests + 1
        passed := false
        test_details := results.test_details ++
          [(nt.1, { passed := false, message := "Test crashed: " ++ e
                    details := [("error", PyVal.s e)] })] }

/-- The `all_tests` dict of `run_tests` (lines 114-121): start from the
standard tests unless skipped, then `dict.update` with the custom tests. -/
def runner2AllTests (s : Runner2State) (skip_custom skip_standard : Bool) :
    List (String × TestFunc2) :=
  let base : List (String × TestFunc2) :=
    if skip_standard then [] else s.standard_tests
  if skip_custom then base
  else s.custom_tests.foldl (fun acc nt => alInsert acc nt.1 nt.2) base

/-- The subset filter (lines 124-128): keep keys ending in `"." ++ t` for
some requested bare name `t`. -/
def runner2SubsetFilter : Option (List String) → List (String × TestFunc2) →
    List (String × TestFunc2)
  | none, ts => ts
  | some subset, ts =>
      ts.filter (fun nt => subset.any (fun t => nt.1.endsWith ("." ++ t)))

/-- `TestRunner.run_tests` of test_runner.py (lines 92-186). -/
def runner2RunTests (s : Runner2State) (df : DataFrame)
    (test_subset : Option (List String)) (skip_custom skip_standard : Bool) :
    TR2Results :=
  (runner2SubsetFilter test_subset (runner2AllTests s skip_custom skip_standard)).foldl
    (runner2Step df) ⟨true, 0, 0, 0, []⟩

/-- `run_tests` with the instance state threaded explicitly: the method
reads `self.standard_tests` / `self.custom_tests` and builds a fresh
`results` dict (lines 106-112); it assigns no instance attribute, so the
outgoing state is the incoming one. -/
def runner2RunTestsSt (s : Runner2State) (df : DataFrame)
    (test_subset : Option (List String)) (skip_custom skip_standard : Bool) :
    TR2Results × Runner2State :=
  (runner2RunTests s df test_subset skip_custom skip_standard, s)

/-!
## Concrete instances used to evaluate the definitions
-/

/-- A one-row, one-column frame. -/
def df0 : DataFrame := ⟨[[some "1"]]⟩

/-- A frame of two equal rows (one duplicate, 50 percent). -/
def dfDup : DataFrame := ⟨[[some "x"], [some "x"]]⟩

/-- An environment with no registered tests, no custom specs, and a
filesystem on which every CSV read yields `df0`. -/
def noTestsEnv : Env :=
  { read_csv := fun _ => Except.ok df0
    registry := fun _ => none
    specs := fun _ => none }

/-- A memory-only cleaner whose download and clean succeed. -/
def okCleaner (nm : String) : Cleaner :=
  { name := nm
    download_to_df := some (Except.ok df0)
    download_to_path := none
    clean_from_df := some (fun d => Except.ok d)
    clean_from_path := none
    validate_output := fun _ => true }

/-- A memory-only cleaner whose download raises `boom`. -/
def boomCleaner (nm : String) : Cleaner :=
  { okCleaner nm with download_to_df := some (Except.error "boom") }

/-- A memory-only cleaner whose clean raises. -/
def cleanBoomCleaner : Cleaner :=
  { okCleaner "cboom" with clean_from_df := some (fun _ => Except.error "bad clean") }

/-- A cleaner implementing only the disk pair
`download_to_path` / `clean_from_path`. -/
def diskOnlyCleaner : Cleaner :=
  { name := "disk_only"
    download_to_df := none
    download_to_path := some (fun d => Except.ok (d ++ "/data.csv"))
    clean_from_df := none
    clean_from_path := some (fun _ => Except.ok df0)
    validate_output := fun _ => true }

/-- A cleaner with a disk download, an in-memory clean, and no path clean
(the load-then-clean fallback shape). -/
def pathFallbackCleaner : Cleaner :=
  { name := "pf"
    download_to_df := none
    download_to_path := some (fun d => Except.ok (d ++ "/data.csv"))
    clean_from_df := some (fun d => Except.ok d)
    clean_from_path := none
    validate_output := fun _ => true }

/-- A cleaner with the same override pattern as `okCleaner` but different
method bodies and side effects. -/
def altBodiesCleaner : Cleaner :=
  { name := "alt"
    download_to_df := some (Except.error "network side effect")
    download_to_path := none
    clean_from_df := some (fun _ => Except.ok dfDup)
    clean_from_path := none
    validate_output := fun _ => false }

/-- Registry with the single raising-download cleaner. -/
def regBoom : List (String × Cleaner) := [("boom", boomCleaner "boom")]

/-- Registry with the single raising-clean cleaner. -/
def regCleanBoom : List (String × Cleaner) := [("cboom", cleanBoomCleaner)]

/-- Five independent cleaners, of which `b` and `d` raise during download. -/
def regFive : List (String × Cleaner) :=
  [("a", okCleaner "a"), ("b", boomCleaner "b"), ("c", okCleaner "c"),
   ("d", boomCleaner "d"), ("e", okCleaner "e")]

/-- The batch of the five cleaner names. -/
def namesFive : List String := ["a", "b", "c", "d", "e"]

/-- The cleaner the external root provides under the shared name `dup`. -/
def externalDupCleaner : Cleaner := okCleaner "dup_external"

/-- Two discovery roots: the builtin root holds `dup` and `solo`, the
external root holds a different `dup`; every load succeeds. -/
def discoveryEnvW : DiscoveryEnv :=
  { builtinCandidates := ["dup", "solo"]
    externalCandidates := ["dup"]
    load := fun base n =>
      if base = "external_cleaners" then
        if n = "dup" then some externalDupCleaner else none
      else
        if n = "dup" then some (okCleaner "dup_builtin")
        else if n = "solo" then some (okCleaner "solo") else none }

/-- A legacy `BaseCleaner` instance that overrides neither
`download_to_path` nor `clean_from_path`. -/
def sampleBaseCleaner : PyBaseCleaner :=
  { download_data := fun _ => Except.ok df0
    overridesDownloadToPath := false
    overridesCleanFromPath := false }

/-- A registered test that fails with severity left to the configuration. -/
def warnFailFunc : TestFunc := fun _ _ => Except.ok ⟨false, "warn message", []⟩

/-- A registered test that raises. -/
def crashFunc : TestFunc := fun _ _ => Except.error "division by zero"

/-- A registered test that passes. -/
def okTestFunc : TestFunc := fun _ _ => Except.ok ⟨true, "ok", []⟩

/-- Registry holding only the failing test type `wfail`. -/
def regWarnOnly : TestRegistryFun :=
  fun t => if t = "wfail" then some warnFailFunc else none

/-- Custom specs giving cleaner `c` one warning-severity `wfail` test. -/
def specsWarnOnly : String → Option Spec :=
  fun n => if n = "c" then
    some [("wf", ⟨"wfail", [], Severity.warning⟩)] else none

/-- Registry in which the standard `not_empty` test crashes and
`no_null_columns` passes; the other standard types are unregistered. -/
def regCrash : TestRegistryFun :=
  fun t =>
    if t = "not_empty" then some crashFunc
    else if t = "no_null_columns" then some okTestFunc
    else none

/-- Registry exposing only the builtin duplicate-rows test. -/
def regDup : TestRegistryFun :=
  fun t => if t = "duplicate_rows" then
    some (fun df params => Except.ok (test_duplicate_rows df params)) else none

/-- Whether an outcome fails with severity `error` (the only shape that
clears the aggregate flag in `_aggregate_results`). -/
def flipsB (nt : String × TestOutcome) : Bool :=
  !nt.2.passed && decide (nt.2.severity = Severity.error)

/-- Whether an outcome fails with a severity other than `error` (recorded
under `warnings`). -/
def warnFailB (nt : String × TestOutcome) : Bool :=
  !nt.2.passed && !decide (nt.2.severity = Severity.error)

/-- The `[name] message` string `_aggregate_results` records. -/
def aggMsg (nt : String × TestOutcome) : String :=
  "[" ++ nt.1 ++ "] " ++ nt.2.message

/-!
## Helper lemmas
-/

theorem alLookup_alInsert_self {β : Type} (reg : List (String × β))
    (k : String) (v : β) : alLookup (alInsert reg k v) k = some v := by
  induction reg with
  | nil => simp [alInsert, alLookup]
  | cons hd tl ih =>
      obtain ⟨k', v'⟩ := hd
      by_cases h : k' = k
      · simp [alInsert, alLookup, h]
      · simp [alInsert, alLookup, h, ih]

theorem alLookup_alInsert_of_ne {β : Type} (reg : List (String × β))
    (k k2 : String) (v : β) (h : k ≠ k2) :
    alLookup (alInsert reg k v) k2 = alLookup reg k2 := by
  induction reg with
  | nil => simp [alInsert, alLookup, h]
  | cons hd tl ih =>
      obtain ⟨a, b⟩ := hd
      by_cases ha : a = k
      · subst ha
        simp [alInsert, alLookup, h]
      · by_cases ha2 : a = k2
        · subst ha2
          simp [alInsert, alLookup, ha]
        · simp [alInsert, alLookup, ha, ha2, ih]

theorem discoverFold_lookup_of_not_mem (env : DiscoveryEnv) (base : String)
    (ns : List String) (reg : List (String × Cleaner)) (n : String)
    (h : n ∉ ns) :
    alLookup (ns.foldl (fun reg m => tryLoadCleaner env base m reg) reg) n
      = alLookup reg n := by
  induction ns generalizing reg with
  | nil => rfl
  | cons m ms ih =>
      have hn : n ∉ ms := fun hx => h (List.mem_cons_of_mem _ hx)
      have hm : m ≠ n := fun hx => h (hx ▸ List.mem_cons_self m ms)
      rw [List.foldl_cons, ih _ hn]
      unfold tryLoadCleaner
      cases env.load base m with
      | none => rfl
      | some cls => exact alLookup_alInsert_of_ne _ _ _ _ hm

theorem discoverFold_lookup_of_load (env : DiscoveryEnv) (base : String)
    (ns : List String) (reg : List (String × Cleaner)) (n : String)
    (cls : Cleaner) (hnd : ns.Nodup) (hm : n ∈ ns)
    (hl : env.load base n = some cls) :
    alLookup (ns.foldl (fun reg m => tryLoadCleaner env base m reg) reg) n
      = some cls := by
  induction ns generalizing reg with
  | nil => exact absurd hm (List.not_mem_nil n)
  | cons m ms ih =>
      rcases List.mem_cons.mp hm with rfl | hmem
      · have hnotin : n ∉ ms := (List.nodup_cons.mp hnd).1
        rw [List.foldl_cons, discoverFold_lookup_of_not_mem env base ms _ n hnotin]
        unfold tryLoadCleaner
        rw [hl]
        exact alLookup_alInsert_self _ _ _
      · rw [List.foldl_cons]
        exact ih _ (List.nodup_cons.mp hnd).2 hmem

theorem aggregateOne_passed (agg : AggState) (nt : String × TestOutcome) :
    (aggregateOne agg nt).passed = (agg.passed && !flipsB nt) := by
  unfold aggregateOne flipsB
  by_cases hp : nt.2.passed
  · simp [hp]
  · by_cases hs : nt.2.severity = Severity.error
    · simp [hp, hs]
    · simp [hp, hs]

theorem aggregateResults_passed (outs : List (String × TestOutcome))
    (agg : AggState) :
    (aggregateResults outs agg).passed = (agg.passed && !outs.any flipsB) := by
  induction outs generalizing agg with
  | nil => simp [aggregateResults]
  | cons nt ts ih =>
      have h1 : aggregateResults (nt :: ts) agg
          = aggregateResults ts (aggregateOne agg nt) := rfl
      rw [h1, ih, aggregateOne_passed]
      simp [List.any_cons, Bool.and_assoc]

theorem aggregateOne_warnings (agg : AggState) (nt : String × TestOutcome) :
    (aggregateOne agg nt).warnings
      = agg.warnings ++ (if warnFailB nt then [aggMsg nt] else []) := by
  unfold aggregateOne warnFailB aggMsg
  by_cases hp : nt.2.passed
  · simp [hp]
  · by_cases hs : nt.2.severity = Severity.error
    · simp [hp, hs]
    · simp [hp, hs]

theorem aggregateResults_warnings (outs : List (String × TestOutcome))
    (agg : AggState) :
    (aggregateResults outs agg).warnings
      = agg.warnings ++ (outs.filter warnFailB).map aggMsg := by
  induction outs generalizing agg with
  | nil => simp [aggregateResults]
  | cons nt ts ih =>
      have h1 : aggregateResults (nt :: ts) agg
          = aggregateResults ts (aggregateOne agg nt) := rfl
      rw [h1, ih, aggregateOne_warnings]
      by_cases hw : warnFailB nt
      · simp [hw, List.filter_cons]
      · simp [hw, List.filter_cons]

theorem flipsB_eq_true_iff (nt : String × TestOutcome) :
    flipsB nt = true ↔ nt.2.severity = Severity.error ∧ nt.2.passed = false := by
  unfold flipsB
  simp [Bool.and_eq_true, decide_eq_true_iff, and_comm]

theorem no_flips_iff (outs : List (String × TestOutcome)) :
    (!outs.any flipsB) = true ↔
      ∀ nt ∈ outs, ¬(nt.2.severity = Severity.error ∧ nt.2.passed = false) := by
  rw [Bool.not_eq_true']
  rw [← Bool.not_eq_true (outs.any flipsB)]
  simp only [List.any_eq_true, not_exists]
  constructor
  · intro h nt hm
    rw [← flipsB_eq_true_iff]
    have := h nt
    intro hc
    exact this ⟨hm, hc⟩
  · intro h nt
    rintro ⟨hm, hf⟩
    exact h nt hm ((flipsB_eq_true_iff nt).mp hf)

theorem duplicatePct_nonneg (df : DataFrame) : 0 ≤ duplicatePct df := by
  unfold duplicatePct
  split
  · positivity
  · exact le_refl 0

/-!
## Claim theorems
-/

/-- C10: `test_duplicate_rows` passes iff the duplicate percentage
`duplicate_count / row_count * 100` (0 for an empty frame) is strictly
below the `threshold` parameter, which defaults to 0 when omitted; with the
default the test fails on every frame, duplicates or not. -/
theorem C10_duplicate_rows_threshold :
    (∀ df params, ((test_duplicate_rows df params).passed = true ↔
        duplicatePct df < (alLookup params "threshold").getD 0)) ∧
    (∀ df, df.rows = [] → duplicatePct df = 0) ∧
    (∀ df, (test_duplicate_rows df []).passed = false) := by
  refine ⟨?_, ?_, ?_⟩
  · intro df params
    simp [test_duplicate_rows]
  · intro df h
    simp [duplicatePct, h]
  · intro df
    simp [test_duplicate_rows, alLookup, decide_eq_false_iff_not, not_lt]
    exact duplicatePct_nonneg df

/-- C10 witness: the empty frame has percentage 0, and with the threshold
omitted the test fails even on the duplicate-free `df0`. -/
theorem C10_witness :
    duplicatePct ⟨[]⟩ = 0 ∧ (test_duplicate_rows df0 []).passed = false :=
  ⟨C10_duplicate_rows_threshold.2.1 ⟨[]⟩ rfl,
   C10_duplicate_rows_threshold.2.2 df0⟩

/-- C1: evaluation at the failing input of the download-selection bug.  The
cleaner implements `download_to_path` (the probe reports it), yet
`run_cleaner` with `use_disk=False` raises the `NotImplementedError` whose
message asserts that neither download method is implemented, instead of
using the only available download path as the spec requires. -/
theorem C1_disk_only_dispatch_eval :
    diskOnlyCleaner.download_to_path.isSome = true ∧
    (get_capabilities diskOnlyCleaner).download_to_path = true ∧
    downloadStep diskOnlyCleaner "disk_only" false
      = Except.error
        "Cleaner disk_only must implement download_to_df() or download_to_path()" :=
  ⟨rfl, rfl, rfl⟩

/-- C6 counterexample: the legacy probe `BaseCleaner.get_capabilities`
(src/base_cleaner.py lines 131-149) invokes `download_data` for both
formats on a concrete cleaner instance, and reports `clean_from_path`
as true although the concrete class does not override it — refuting both
the never-invokes and the flag-iff-override parts of the claim. -/
theorem C6_counterexample_base_probe :
    (BaseCleaner_get_capabilities sampleBaseCleaner).2
        = [DLFormat.dataframe, DLFormat.array] ∧
    (BaseCleaner_get_capabilities sampleBaseCleaner).2 ≠ [] ∧
    (BaseCleaner_get_capabilities sampleBaseCleaner).1.clean_from_path = true ∧
    sampleBaseCleaner.overridesCleanFromPath = false :=
  ⟨rfl, by decide, rfl, rfl⟩

/-- C6 amended: the probe the pipeline uses, `DataCleaner.get_capabilities`
(src/core/base_cleaner.py lines 82-89), returns the complete four-flag
capability set with each flag true iff the operation is overridden, and its
result depends only on the override pattern — never on the operation
bodies, which it does not invoke. -/
theorem C6_core_probe_pure (c c' : Cleaner)
    (h1 : c.download_to_df.isSome = c'.download_to_df.isSome)
    (h2 : c.download_to_path.isSome = c'.download_to_path.isSome)
    (h3 : c.clean_from_df.isSome = c'.clean_from_df.isSome)
    (h4 : c.clean_from_path.isSome = c'.clean_from_path.isSome) :
    get_capabilities c = { download_to_df := c.download_to_df.isSome
                           download_to_path := c.download_to_path.isSome
                           clean_from_df := c.clean_from_df.isSome
                           clean_from_path := c.clean_from_path.isSome } ∧
    get_capabilities c = get_capabilities c' := by
  constructor
  · rfl
  · unfold get_capabilities
    rw [h1, h2, h3, h4]

/-- C6 witness: two cleaners with the same override pattern but different
method bodies and side effects get identical capability sets. -/
theorem C6_witness :
    get_capabilities (okCleaner "ok") = get_capabilities altBodiesCleaner :=
  (C6_core_probe_pure (okCleaner "ok") altBodiesCleaner rfl rfl rfl rfl).2

/-- C3 counterexample: a concrete cleaner whose download raises `boom`.
The exception does not propagate out of `run_cleaner`: the run returns
`None` (the error is only written to the log). -/
theorem C3_counterexample_swallowed :
    run_cleaner noTestsEnv regBoom "boom" false false
      = (Except.ok none, ["Error running cleaner boom: boom"]) := rfl

/-- C3 amended: an exception raised by user-supplied download or clean code
is caught by the handler at the end of `run_cleaner` (data_cleaning.py
lines 374-377), logged annotated with the cleaner name, and the run
returns `None`; it does not reach the caller. -/
theorem C3_error_caught_logged (env : Env) (reg : List (String × Cleaner))
    (name : String) (c : Cleaner) (use_disk test_only : Bool) (e : String)
    (hc : alLookup reg name = some c)
    (he : runCleanerCore env c name use_disk test_only = Except.error e) :
    run_cleaner env reg name use_disk test_only
      = (Except.ok none, ["Error running cleaner " ++ name ++ ": " ++ e]) := by
  unfold run_cleaner
  simp only [hc, he]

/-- C3 witness: a cleaner whose clean step raises is caught and logged. -/
theorem C3_witness :
    run_cleaner noTestsEnv regCleanBoom "cboom" false false
      = (Except.ok none, ["Error running cleaner cboom: bad clean"]) :=
  C3_error_caught_logged noTestsEnv regCleanBoom "cboom" cleanBoomCleaner
    false false "bad clean" rfl rfl

/-- C2: for a cleaner whose download yields a path and that overrides
`clean_from_df` but not `clean_from_path`, dispatch succeeds via the
read-then-clean fallback (data_cleaning.py lines 333-336), and the cleaned
dataset is exactly `clean_from_df(read_csv(downloaded_path))`; when
validation and tests pass, that dataset is what the run returns. -/
theorem C2_path_fallback_refinement (env : Env) (c : Cleaner) (nm : String)
    (fdl : FilePath → Except String FilePath)
    (g : DataFrame → Except String DataFrame)
    (p : FilePath) (df out : DataFrame)
    (hdl : c.download_to_path = some fdl)
    (hp : fdl (rawDir nm) = Except.ok p)
    (hnone : c.clean_from_path = none)
    (hg : c.clean_from_df = some g)
    (hread : env.read_csv p = Except.ok df)
    (hout : g df = Except.ok out)
    (hv : c.validate_output out = true)
    (ht : (TF_run_tests env.registry env.specs nm out).passed = true) :
    downloadStep c nm true = Except.ok (DataRef.path p) ∧
    cleanStep env c nm (DataRef.path p) = env.read_csv p >>= g ∧
    cleanStep env c nm (DataRef.path p) = Except.ok out ∧
    runCleanerCore env c nm true false = Except.ok (some out) := by
  have hcapP : (get_capabilities c).download_to_path = true := by
    simp [get_capabilities, hdl]
  have hcapCF : (get_capabilities c).clean_from_df = true := by
    simp [get_capabilities, hg]
  have hcapCP : (get_capabilities c).clean_from_path = false := by
    simp [get_capabilities, hnone]
  have h1 : downloadStep c nm true = Except.ok (DataRef.path p) := by
    unfold downloadStep
    simp [hcapP, callDownloadToPath, hdl, hp, Except.map]
  have h2 : cleanStep env c nm (DataRef.path p) = env.read_csv p >>= g := by
    unfold cleanStep
    simp [hcapCP, hcapCF, callCleanFromDf, hg]
  have h3 : cleanStep env c nm (DataRef.path p) = Except.ok out := by
    rw [h2, hread]
    exact hout
  refine ⟨h1, h2, h3, ?_⟩
  unfold runCleanerCore
  rw [h1]
  show (cleanStep env c nm (DataRef.path p)).bind _ = _
  rw [h3]
  show (if !(c.validate_output out) then _ else _) = _
  rw [hv]
  simp [ht]
  rfl

/-- C2 witness: the concrete fallback-shaped cleaner run with a disk
download; the run returns exactly the frame read from the downloaded path
and cleaned in memory. -/
theorem C2_witness :
    runCleanerCore noTestsEnv pathFallbackCleaner "pf" true false
        = Except.ok (some df0) ∧
    cleanStep noTestsEnv pathFallbackCleaner "pf"
        (DataRef.path "data/raw/pf/data.csv") = Except.ok df0 :=
  have h := C2_path_fallback_refinement noTestsEnv pathFallbackCleaner "pf"
    (fun d => Except.ok (d ++ "/data.csv")) (fun d => Except.ok d)
    "data/raw/pf/data.csv" df0 df0 rfl rfl rfl rfl rfl rfl rfl rfl
  ⟨h.2.2.2, h.2.2.1⟩

theorem run_multiple_seq_map_fst (env : Env) (reg : List (String × Cleaner))
    (use_disk : Bool) (names : List String) :
    (run_multiple_seq env reg names use_disk).map Prod.fst
      = names.filter (fun n => runSucceeded env reg n use_disk) := by
  induction names with
  | nil => rfl
  | cons m ms ih =>
      simp only [run_multiple_seq]
      cases hr : (run_cleaner env reg m use_disk false).1 with
      | error e => simp [List.filter_cons, runSucceeded, hr, ih]
      | ok o =>
          cases o with
          | none => simp [List.filter_cons, runSucceeded, hr, ih]
          | some df => simp [List.filter_cons, runSucceeded, hr, ih]

theorem run_multiple_seq_mem (env : Env) (reg : List (String × Cleaner))
    (use_disk : Bool) (names : List String) :
    ∀ (n : String) (df : DataFrame),
      (n, df) ∈ run_multiple_seq env reg names use_disk →
      (run_cleaner env reg n use_disk false).1 = Except.ok (some df) := by
  induction names with
  | nil =>
      intro n df h
      simp [run_multiple_seq] at h
  | cons m ms ih =>
      intro n df h
      simp only [run_multiple_seq] at h
      revert h
      cases hr : (run_cleaner env reg m use_disk false).1 with
      | error e => exact fun h => ih n df h
      | ok o =>
          cases o with
          | none => exact fun h => ih n df h
          | some dfm =>
              intro h
              rcases List.mem_cons.mp h with heq | hmem
              · simp only [Prod.mk.injEq] at heq
                obtain ⟨rfl, rfl⟩ := heq
                exact hr
              · exact ih n df hmem

/-- C8: the sequential batch runner returns a mapping whose keys are
exactly the names whose runs produced a frame, each bound to that frame; a
cleaner that raises (or returns `None`) contributes no entry, and the
batch never raises.  The parallel branch applies the identical per-name
collection logic, differing only in completion order. -/
theorem C8_run_multiple_successes (env : Env) (reg : List (String × Cleaner))
    (names : List String) (use_disk : Bool) (_hnd : names.Nodup) :
    (run_multiple_seq env reg names use_disk).map Prod.fst
      = names.filter (fun n => runSucceeded env reg n use_disk) ∧
    ∀ n df, (n, df) ∈ run_multiple_seq env reg names use_disk →
      (run_cleaner env reg n use_disk false).1 = Except.ok (some df) :=
  ⟨run_multiple_seq_map_fst env reg use_disk names,
   run_multiple_seq_mem env reg use_disk names⟩

/-- C8 witness: five cleaners, two of which raise during download, yield a
mapping with exactly the three surviving names. -/
theorem C8_witness :
    (run_multiple_seq noTestsEnv regFive namesFive false).map Prod.fst
        = ["a", "c", "e"] ∧
    (run_multiple_seq noTestsEnv regFive namesFive false).length = 3 := by
  have h := (C8_run_multiple_successes noTestsEnv regFive namesFive false
    (by decide)).1
  constructor
  · rw [h]
    rfl
  · calc (run_multiple_seq noTestsEnv regFive namesFive false).length
        = ((run_multiple_seq noTestsEnv regFive namesFive false).map
            Prod.fst).length := (List.length_map _ _).symm
      _ = 3 := by rw [h]; rfl

/-- C7: when a later discovery root carries a candidate of the same name as
an earlier root and its load succeeds, the final registry binds the name to
the class of the later root (dict assignment overwrites); moreover the entry
for a name depends only on the load outcomes of that name, so load failures of
other candidates never affect it, and discovery is total (it returns a
registry for every environment, raising nothing). -/
theorem C7_last_root_wins (env : DiscoveryEnv) (n : String) (cls : Cleaner)
    (hnd : env.externalCandidates.Nodup)
    (hmem : n ∈ env.externalCandidates)
    (hdot : firstCharIs n '.' = false)
    (hload : env.load "external_cleaners" n = some cls) :
    alLookup (discoverCleaners env) n = some cls ∧
    ∀ env' : DiscoveryEnv,
      env'.externalCandidates = env.externalCandidates →
      env'.load "external_cleaners" n = env.load "external_cleaners" n →
      alLookup (discoverCleaners env') n = some cls := by
  have main : ∀ e2 : DiscoveryEnv,
      e2.externalCandidates = env.externalCandidates →
      e2.load "external_cleaners" n = some cls →
      alLookup (discoverCleaners e2) n = some cls := by
    intro e2 hext hl
    unfold discoverCleaners
    apply discoverFold_lookup_of_load
    · exact (hext ▸ hnd).filter _
    · exact List.mem_filter.mpr ⟨hext ▸ hmem, by simp [hdot]⟩
    · exact hl
  exact ⟨main env rfl hload,
    fun env' hx hl => main env' hx (hl.trans hload)⟩

/-- C7 witness: roots `cleaners` and `external_cleaners` both carry `dup`;
the final registry holds the external implementation. -/
theorem C7_witness :
    alLookup (discoverCleaners discoveryEnvW) "dup" = some externalDupCleaner :=
  (C7_last_root_wins discoveryEnvW "dup" externalDupCleaner
    (by decide) (by decide) (by decide) rfl).1

/-- C9: running `run_tests` of tests/test_runner.py twice on the same
frame and option set gives identical report content, and the run leaves
the runner state (the discovered test tables) unchanged — no counter,
outcome, or flag carries over, since the results dict is built fresh and no
instance attribute is assigned. -/
theorem C9_run_tests_idempotent (s : Runner2State) (df : DataFrame)
    (test_subset : Option (List String)) (skip_custom skip_standard : Bool) :
    (runner2RunTestsSt s df test_subset skip_custom skip_standard).2 = s ∧
    (runner2RunTestsSt
        (runner2RunTestsSt s df test_subset skip_custom skip_standard).2
        df test_subset skip_custom skip_standard).1
      = (runner2RunTestsSt s df test_subset skip_custom skip_standard).1 :=
  ⟨rfl, rfl⟩

theorem warnFailB_eq_true (nt : String × TestOutcome)
    (hs : nt.2.severity = Severity.warning) (hp : nt.2.passed = false) :
    warnFailB nt = true := by
  unfold warnFailB
  simp [hp, hs]

/-- C4: the `passed` flag of a `run_tests` report is true iff no contained
outcome fails with severity `error`; every failed `warning`-severity
outcome is retained (its formatted message lands in `warnings`) without
clearing the flag. -/
theorem C4_aggregate_passed_iff (reg : TestRegistryFun)
    (specs : String → Option Spec) (name : String) (df : DataFrame) :
    ((TF_run_tests reg specs name df).passed = true ↔
      ∀ nt ∈ (TF_run_tests reg specs name df).outcomes,
        ¬(nt.2.severity = Severity.error ∧ nt.2.passed = false)) ∧
    ∀ nt ∈ (TF_run_tests reg specs name df).outcomes,
      nt.2.severity = Severity.warning → nt.2.passed = false →
      aggMsg nt ∈ (TF_run_tests reg specs name df).warnings := by
  unfold TF_run_tests
  cases hs : specs name with
  | none =>
      simp only [AggResults.outcomes, Option.getD_none, List.append_nil]
      constructor
      · rw [aggregateResults_passed]
        simp only [Bool.true_and]
        exact no_flips_iff _
      · intro nt hm hsev hp
        rw [aggregateResults_warnings]
        simp only [List.nil_append]
        exact List.mem_map.mpr
          ⟨nt, List.mem_filter.mpr ⟨hm, warnFailB_eq_true nt hsev hp⟩, rfl⟩
  | some spec =>
      simp only [AggResults.outcomes, Option.getD_some]
      constructor
      · rw [aggregateResults_passed, aggregateResults_passed]
        rw [← no_flips_iff]
        simp [List.any_append, Bool.and_assoc]
      · intro nt hm hsev hp
        rw [aggregateResults_warnings, aggregateResults_warnings]
        simp only [List.nil_append]
        rcases List.mem_append.mp hm with h1 | h2
        · exact List.mem_append.mpr (Or.inl (List.mem_map.mpr
            ⟨nt, List.mem_filter.mpr ⟨h1, warnFailB_eq_true nt hsev hp⟩, rfl⟩))
        · exact List.mem_append.mpr (Or.inr (List.mem_map.mpr
            ⟨nt, List.mem_filter.mpr ⟨h2, warnFailB_eq_true nt hsev hp⟩, rfl⟩))

/-- C4 witness: a custom test failing with severity `warning` leaves the
aggregate flag true while its message is recorded under `warnings`. -/
theorem C4_witness :
    (TF_run_tests regWarnOnly specsWarnOnly "c" df0).passed = true ∧
    aggMsg ("wf", ⟨false, "warn message", [], Severity.warning⟩)
        ∈ (TF_run_tests regWarnOnly specsWarnOnly "c" df0).warnings := by
  have h := C4_aggregate_passed_iff regWarnOnly specsWarnOnly "c" df0
  exact ⟨h.1.mpr (by decide),
    h.2 ("wf", ⟨false, "warn message", [], Severity.warning⟩) (by decide) rfl rfl⟩

theorem runOneStandard_fst (reg : TestRegistryFun) (df : DataFrame)
    (nc : String × TestConfig) (o : String × TestOutcome)
    (h : runOneStandard reg df nc = some o) : o.1 = nc.1 := by
  unfold runOneStandard at h
  cases hr : reg nc.2.type with
  | none =>
      rw [hr] at h
      cases h
  | some f =>
      rw [hr] at h
      injection h with h2
      exact h2 ▸ rfl

theorem runStandardTestsWith_cons_some (reg : TestRegistryFun)
    (df : DataFrame) (nc : String × TestConfig)
    (ts : List (String × TestConfig)) (o : String × TestOutcome)
    (h : runOneStandard reg df nc = some o) :
    runStandardTestsWith reg df (nc :: ts)
      = o :: runStandardTestsWith reg df ts := by
  unfold runStandardTestsWith
  rw [List.filterMap_cons, h]

theorem runStandardTestsWith_cons_none (reg : TestRegistryFun)
    (df : DataFrame) (nc : String × TestConfig)
    (ts : List (String × TestConfig))
    (h : runOneStandard reg df nc = none) :
    runStandardTestsWith reg df (nc :: ts) = runStandardTestsWith reg df ts := by
  unfold runStandardTestsWith
  rw [List.filterMap_cons, h]

theorem runStd_filter_nil (reg : TestRegistryFun) (df : DataFrame)
    (name : String) (ts : List (String × TestConfig))
    (h : name ∉ ts.map Prod.fst) :
    (runStandardTestsWith reg df ts).filter (fun o => o.1 == name) = [] := by
  induction ts with
  | nil => rfl
  | cons nc ts ih =>
      rw [List.map_cons] at h
      simp only [List.mem_cons, not_or] at h
      obtain ⟨h1, h2⟩ := h
      cases hro : runOneStandard reg df nc with
      | none =>
          rw [runStandardTestsWith_cons_none reg df nc ts hro]
          exact ih h2
      | some o =>
          have ho1 : o.1 = nc.1 := runOneStandard_fst reg df nc o hro
          have hne : (o.1 == name) = false := by
            rw [beq_eq_false_iff_ne, ho1]
            exact fun hx => h1 (hx ▸ rfl)
          rw [runStandardTestsWith_cons_some reg df nc ts o hro, List.filter_cons]
          simp only [hne, Bool.false_eq_true, if_false]
          exact ih h2

/-- C5: a standard test whose function raises yields exactly one recorded
outcome for that test — failing, severity `error`, the details error entry
carrying the exception text — and every other configured test with a
registered type still contributes its own outcome (a crash never aborts
the loop). -/
theorem C5_crash_isolated (reg : TestRegistryFun) (df : DataFrame)
    (tests : List (String × TestConfig)) (name : String) (cfg : TestConfig)
    (f : TestFunc) (e : String)
    (hnd : (tests.map Prod.fst).Nodup)
    (hmem : (name, cfg) ∈ tests)
    (hreg : reg cfg.type = some f)
    (hcrash : f df cfg.params = Except.error e) :
    (runStandardTestsWith reg df tests).filter (fun o => o.1 == name)
        = [(name, crashOutcomeStd e)] ∧
    (crashOutcomeStd e).passed = false ∧
    (crashOutcomeStd e).severity = Severity.error ∧
    alLookup (crashOutcomeStd e).details "error" = some (PyVal.s e) ∧
    ∀ p ∈ tests, ∀ o, runOneStandard reg df p = some o →
        o ∈ runStandardTestsWith reg df tests := by
  refine ⟨?_, rfl, rfl, rfl, ?_⟩
  · induction tests with
    | nil => cases hmem
    | cons nc ts ih =>
        rcases List.mem_cons.mp hmem with heq | hmem2
        · have hone : runOneStandard reg df nc = some (name, crashOutcomeStd e) := by
            rw [← heq]
            simp only [runOneStandard, hreg, hcrash]
          have hnotin : name ∉ ts.map Prod.fst := by
            rw [List.map_cons] at hnd
            have h0 := (List.nodup_cons.mp hnd).1
            rw [← heq] at h0
            exact h0
          rw [runStandardTestsWith_cons_some reg df nc ts _ hone, List.filter_cons]
          simp only [beq_self_eq_true, if_true]
          rw [runStd_filter_nil reg df name ts hnotin]
        · have hname_mem : name ∈ ts.map Prod.fst :=
            List.mem_map.mpr ⟨(name, cfg), hmem2, rfl⟩
          have hne : nc.1 ≠ name := by
            rw [List.map_cons] at hnd
            intro hx
            exact (List.nodup_cons.mp hnd).1 (hx ▸ hname_mem)
          have hndt : (ts.map Prod.fst).Nodup := by
            rw [List.map_cons] at hnd
            exact (List.nodup_cons.mp hnd).2
          cases hro : runOneStandard reg df nc with
          | none =>
              rw [runStandardTestsWith_cons_none reg df nc ts hro]
              exact ih hndt hmem2
          | some o =>
              have ho1 : o.1 = nc.1 := runOneStandard_fst reg df nc o hro
              have hobne : (o.1 == name) = false := by
                rw [beq_eq_false_iff_ne, ho1]
                exact hne
              rw [runStandardTestsWith_cons_some reg df nc ts o hro, List.filter_cons]
              simp only [hobne, Bool.false_eq_true, if_false]
              exact ih hndt hmem2
  · intro p hp o ho
    exact List.mem_filterMap.mpr ⟨p, hp, ho⟩

/-- C5 witness: with `not_empty` registered to a raising function, the
standard runner records exactly its crash outcome and still records the
outcome of `no_null_columns`. -/
theorem C5_witness :
    (runStandardTestsWith regCrash df0 standardTestsConfig).filter
        (fun o => o.1 == "not_empty")
      = [("not_empty", crashOutcomeStd "division by zero")] ∧
    alLookup (crashOutcomeStd "division by zero").details "error"
      = some (PyVal.s "division by zero") ∧
    ("no_null_columns", ⟨true, "ok", [], Severity.error⟩)
      ∈ runStandardTestsWith regCrash df0 standardTestsConfig := by
  have h := C5_crash_isolated regCrash df0 standardTestsConfig "not_empty"
    ⟨"not_empty", [], Severity.error⟩ crashFunc "division by zero"
    (by decide) (by decide) rfl rfl
  exact ⟨h.1, h.2.2.2.1,
    h.2.2.2.2 ("no_null_columns", ⟨"no_null_columns", [], Severity.error⟩)
      (by decide) ("no_null_columns", ⟨true, "ok", [], Severity.error⟩) rfl⟩

end DataCleaning
